import Mathlib

/-!
# AutoTrackIR: the dispatch loop of `main.go`

A shallow embedding of `dispatchProc` and `HandleEvents` from `main.go`.

* The package-level variables `cameraState` and `debounce` become the fields of `State`,
  passed into and returned from every function.
* The SimConnect session is the list of results that successive `GetNextDispatch` calls
  return; a call on an exhausted list returns the "no data available" code.
* Every externally visible action (a `GetNextDispatch` call, a log line, a
  `SetDataOnSimObject` call, a send on `done`, a `RequestDataOnSimObjectType` call) is
  recorded, in program order, in a trace of `Event`s.
* Whatever `main.go` takes from the `simconnect` package or from the Go toolchain without
  defining it (the constants `EFail` and `DataSetFlagDefault`, the result of converting an
  unrepresentable float to an integer) is a field of `SimConnect`.
* The readings of the clock and the result of the write are inputs (`Env`).
-/

namespace AutoTrackIR

/-! ## Values -/

/-- A Go `float64` by its value: a finite number, an infinity or a NaN. The two signed
zeros are the one value `finite 0`; `main.go` only compares the value with `0`, converts it
to an integer and writes the constant `1`, none of which tells them apart. -/
inductive Float64 where
  | finite (q : ℚ)
  | posInf
  | negInf
  | NaN
deriving DecidableEq

/-- The Go comparison `v == 0` on a `float64`. -/
def Float64.eqZero : Float64 → Bool
  | .finite q => decide (q = 0)
  | _ => false

/-- What `main.go` uses from the `simconnect` package and the Go implementation without
defining it. -/
structure SimConnect where
  /-- The constant `simconnect.EFail`, compared with `uint32(r1)`. -/
  EFail : Nat
  /-- `EFail` is a `uint32` whose `int32` reading is negative. -/
  EFail_range : 2147483648 ≤ EFail ∧ EFail < 4294967296
  /-- The constant `simconnect.DataSetFlagDefault`. -/
  DataSetFlagDefault : Nat
  /-- The result of `simconnect.DWord(v)` for a `v` whose truncation is no `uint32`;
  Go leaves it to the implementation. -/
  convertUnrepresentable : Float64 → Nat

/-- The Go conversion `simconnect.DWord(v)` of a `float64` to a `uint32`: the fraction is
discarded (truncation toward zero) when the result is representable. -/
def DWord (lib : SimConnect) : Float64 → Nat
  | .finite q =>
    if -1 < q ∧ q < 4294967296 then (Int.tdiv q.num q.den).toNat
    else lib.convertUnrepresentable (.finite q) % 4294967296
  | v => lib.convertUnrepresentable v % 4294967296

/-- The Go conversion `uint32(r1)` of an `int32`. -/
def uint32 (r1 : Int) : Nat := (r1 % 4294967296).toNat

/-- The constant `DataDefTrackIrEnable` (`iota` = 0). -/
def DataDefTrackIrEnable : Nat := 0

/-- The constant `DataDefCameraState` (`iota` = 1). -/
def DataDefCameraState : Nat := 1

/-! ## Time

A `time.Time` is its distance in nanoseconds from the zero `Time`; a `time.Duration` is a
number of nanoseconds in the `int64` range. -/

/-- The constant `time.Second`, in nanoseconds. -/
def Second : Int := 1000000000

/-- The largest `time.Duration`. -/
def maxDuration : Int := 9223372036854775807

/-- The smallest `time.Duration`. -/
def minDuration : Int := -9223372036854775808

/-- The zero `time.Time`, the initial value of `debounce`. -/
def zeroTime : Int := 0

/-- The duration `time.Since(t)` when the clock reads `now`: the difference, replaced by
the largest or smallest duration when it is out of range. -/
def Since (now t : Int) : Int :=
  if now - t > maxDuration then maxDuration
  else if now - t < minDuration then minDuration
  else now - t

/-! ## Messages, state and trace -/

/-- The type `SimObjectValue`: the fields of `RecvSimObjectDataByType` that `main.go` reads,
and the value. -/
structure SimObjectValue where
  RequestID : Nat
  ObjectID : Nat
  DefineID : Nat
  Value : Float64
deriving DecidableEq

/-- What `ppData` points to, by the `recv.ID` that `dispatchProc` switches on. -/
inductive Recv where
  | Open
  | Quit
  | Exception (exception : Nat)
  | SimObjectDataByType (data : SimObjectValue)
  | unknown (id : Nat)
deriving DecidableEq

/-- One result `(ppData, r1, err)` of `simConnect.GetNextDispatch()`; `ptr` is the address
in `ppData`, which the default case prints. -/
structure DispatchResult where
  ppData : Recv
  ptr : Nat
  r1 : Int
  err : Option String
deriving DecidableEq

/-- An argument of a print call. -/
inductive Arg where
  | str (s : String)
  | int (n : Int)
  | err (e : Option String)
  | pointer (p : Nat)
deriving DecidableEq

/-- The externally visible actions of the program. A send on `done` is recorded and the
program goes on: `done` is buffered and `main` receives from it. -/
inductive Event where
  | GetNextDispatch
  | logPrintln (args : List Arg)
  | fmtPrintf (format : String) (args : List Arg)
  | SetDataOnSimObject (defineID objectID flag arrayIndex size : Nat) (data : List Float64)
  | doneSend
  | tickerRecv
  | RequestDataOnSimObjectType (defineID : Nat)
deriving DecidableEq

/-- The package variables `cameraState` and `debounce`. -/
structure State where
  cameraState : Nat
  debounce : Int
deriving DecidableEq

/-- The initial values of the package variables. -/
def State.init : State := ⟨0, zeroTime⟩

/-- What one call of `dispatchProc` reads from outside: the reading of the clock by
`time.Since`, the reading by `time.Now`, and the error `SetDataOnSimObject` returns. A call
handles at most one object-data message, so it makes each of the three at most once. -/
structure Env where
  sinceAt : Int
  nowAt : Int
  setDataErr : Option String
deriving DecidableEq

/-- The result of a call: the package variables, the actions in order, and the results
`GetNextDispatch` has yet to return. -/
structure Outcome where
  state : State
  trace : List Event
  pending : List DispatchResult
deriving DecidableEq

/-- The result of `GetNextDispatch` when nothing is pending: the code `EFail`. -/
def noData (lib : SimConnect) : DispatchResult :=
  ⟨.unknown 0, 0, (lib.EFail : Int) - 4294967296, none⟩

/-! ## `dispatchProc` -/

/-- The branch `if r1 < 0` of `dispatchProc` (lines 171-179). -/
def onNegative (lib : SimConnect) (d : DispatchResult) : List Event :=
  if uint32 d.r1 ≠ lib.EFail then
    [.fmtPrintf "GetNextDispatch error: %d %s\n" [.int d.r1, .err d.err]]
  else []

/-- The case `simconnect.RecvIDSimObjectDataByType` of `dispatchProc` (lines 196-225). -/
def caseSimObjectDataByType (lib : SimConnect) (env : Env) (s : State)
    (data : SimObjectValue) : State × List Event :=
  if data.DefineID = DataDefTrackIrEnable then
    if data.Value.eqZero = true ∧ s.cameraState > 1 ∧ s.cameraState < 6 then
      let objectID := data.ObjectID
      let logIt : Bool := if Since env.sinceAt s.debounce < 10 * Second then false else true
      let debounce := if logIt = true then env.nowAt else s.debounce
      let payload : List Float64 := [.finite 1]
      let size := 8 * payload.length
      (⟨s.cameraState, debounce⟩,
        (if logIt = true then [Event.logPrintln [.str "Track IR disabled by sim"]] else [])
        ++ [Event.SetDataOnSimObject DataDefTrackIrEnable objectID lib.DataSetFlagDefault 0
              size payload]
        ++ (if logIt = true then [Event.logPrintln [.str "TracIR enabled by me"]] else [])
        ++ (match env.setDataErr with
            | some e => [Event.logPrintln [.str "Error:", .err (some e)]]
            | none => []))
    else (s, [])
  else if data.DefineID = DataDefCameraState then
    (⟨DWord lib data.Value, s.debounce⟩, [])
  else (s, [])

/-- The function `dispatchProc` (lines 168-229), on the results `GetNextDispatch` will
return. -/
def dispatchProc (lib : SimConnect) (env : Env) (s : State) :
    List DispatchResult → Outcome
  | [] => ⟨s, Event.GetNextDispatch :: onNegative lib (noData lib), []⟩
  | d :: rest =>
    if d.r1 < 0 then ⟨s, Event.GetNextDispatch :: onNegative lib d, rest⟩
    else
      match d.ppData with
      | .Open =>
        let o := dispatchProc lib env s rest
        ⟨o.state,
          Event.GetNextDispatch
            :: Event.logPrintln [.str "Connected to Flight Simulator."] :: o.trace,
          o.pending⟩
      | .Quit =>
        ⟨s, [Event.GetNextDispatch,
              Event.logPrintln [.str "Disconnected from Flight Simulator."],
              Event.doneSend], rest⟩
      | .Exception exception =>
        let o := dispatchProc lib env s rest
        ⟨o.state,
          Event.GetNextDispatch
            :: Event.logPrintln [.str "Error:", .int exception] :: o.trace,
          o.pending⟩
      | .SimObjectDataByType data =>
        let r := caseSimObjectDataByType lib env s data
        ⟨r.1, Event.GetNextDispatch :: r.2, rest⟩
      | .unknown _ =>
        ⟨s, [Event.GetNextDispatch, Event.fmtPrintf "recieved: %v\n" [.pointer d.ptr]], rest⟩

/-! ## `HandleEvents` -/

/-- The loop of `HandleEvents` (lines 151-157), for as many ticks of the ticker as the list
is long; each tick comes with what its two `dispatchProc` calls read from outside. The
request identifier of `simconnect.NewRequestID()` is left out of the recorded request. -/
def HandleEvents (lib : SimConnect) : List (Env × Env) → State → List DispatchResult → Outcome
  | [], s, q => ⟨s, [], q⟩
  | (e1, e2) :: ticks, s, q =>
    let o1 := dispatchProc lib e1 s q
    let o2 := dispatchProc lib e2 o1.state o1.pending
    let o3 := HandleEvents lib ticks o2.state o2.pending
    ⟨o3.state,
      [Event.tickerRecv, Event.RequestDataOnSimObjectType DataDefTrackIrEnable] ++ o1.trace
        ++ [Event.RequestDataOnSimObjectType DataDefCameraState] ++ o2.trace ++ o3.trace,
      o3.pending⟩

/-! ## Observations on traces -/

/-- The `SetDataOnSimObject` calls of a trace. -/
def writes (t : List Event) : List Event :=
  t.filter fun e => match e with
    | .SetDataOnSimObject .. => true
    | _ => false

/-- The log lines of a trace, through `log` or `fmt`. -/
def logLines (t : List Event) : List Event :=
  t.filter fun e => match e with
    | .logPrintln _ => true
    | .fmtPrintf _ _ => true
    | _ => false

/-- A message as `GetNextDispatch` returns it: a non-negative code and no error. -/
def received (m : Recv) : DispatchResult := ⟨m, 0, 0, none⟩

/-- The trigger condition of line 201. -/
def trigger (s : State) (data : SimObjectValue) : Prop :=
  data.Value.eqZero = true ∧ 1 < s.cameraState ∧ s.cameraState < 6

instance (s : State) (data : SimObjectValue) : Decidable (trigger s data) := by
  unfold trigger; infer_instance

/-- A library instance with the values of the Windows SDK: `E_FAIL` is `0x80004005`, the
default flag is `0`; an unrepresentable conversion gives `0`. -/
def sdk : SimConnect := ⟨2147500037, by decide, 0, fun _ => 0⟩

/-- An environment whose clock reads `t` at both readings and whose write succeeds. -/
def Env.atTime (t : Int) : Env := ⟨t, t, none⟩

/-! ## The drain of one call, in closed form -/

/-- An `Open` or `Exception` message: the results after which `dispatchProc` calls itself. -/
def drainsAgain (d : DispatchResult) : Bool :=
  decide (0 ≤ d.r1) &&
    (match d.ppData with
      | .Open => true
      | .Exception _ => true
      | _ => false)

/-- The line logged for an `Open` or `Exception` message. -/
def drainLine (d : DispatchResult) : Event :=
  match d.ppData with
  | .Exception exception => Event.logPrintln [.str "Error:", .int exception]
  | _ => Event.logPrintln [.str "Connected to Flight Simulator."]

/-- The trace of a run of `Open` and `Exception` messages: a pull and a line for each. -/
def runLines (run : List DispatchResult) : List Event :=
  run.flatMap fun d => [Event.GetNextDispatch, drainLine d]

/-- The state and trace of the pull that ends a call, by the result it returns (`none`
when nothing is pending). -/
def lastItem (lib : SimConnect) (env : Env) (s : State) :
    Option DispatchResult → State × List Event
  | none => (s, [Event.GetNextDispatch])
  | some d =>
    if d.r1 < 0 then (s, Event.GetNextDispatch :: onNegative lib d)
    else
      match d.ppData with
      | .Quit =>
        (s, [Event.GetNextDispatch,
              Event.logPrintln [.str "Disconnected from Flight Simulator."],
              Event.doneSend])
      | .SimObjectDataByType data =>
        ((caseSimObjectDataByType lib env s data).1,
          Event.GetNextDispatch :: (caseSimObjectDataByType lib env s data).2)
      | _ => (s, [Event.GetNextDispatch, Event.fmtPrintf "recieved: %v\n" [.pointer d.ptr]])

/-! ## Sequences of messages -/

/-- One call of `dispatchProc` that finds the one object-data message `data` pending. -/
def deliver (lib : SimConnect) (env : Env) (s : State) (data : SimObjectValue) : Outcome :=
  dispatchProc lib env s [received (.SimObjectDataByType data)]

/-- Successive calls of `dispatchProc`, one for each message of the sequence, each with
what it reads from outside; the state of one call is passed to the next. The result lists
the outcome of each call. -/
def deliverAll (lib : SimConnect) : State → List (Env × SimObjectValue) → List Outcome
  | _, [] => []
  | s, (env, data) :: ms =>
    deliver lib env s data :: deliverAll lib (deliver lib env s data).state ms

/-- The call logged the line "Track IR disabled by sim". -/
def loggedDisabled (o : Outcome) : Prop :=
  Event.logPrintln [.str "Track IR disabled by sim"] ∈ o.trace

instance (o : Outcome) : Decidable (loggedDisabled o) := by
  unfold loggedDisabled; infer_instance

/-- The readings of the clock over a sequence of messages, in the order they are made. -/
def clockReadings (ms : List (Env × SimObjectValue)) : List Int :=
  ms.flatMap fun m => [m.1.sinceAt, m.1.nowAt]

/-- A sample run: three tracking messages that deliver 0, handled 100, 103 and 111 seconds
after the zero time. -/
def sampleRun : List (Env × SimObjectValue) :=
  [(Env.atTime (100 * Second), ⟨1, 7, 0, .finite 0⟩),
    (Env.atTime (103 * Second), ⟨2, 7, 0, .finite 0⟩),
    (Env.atTime (111 * Second), ⟨3, 7, 0, .finite 0⟩)]

/-! ## Polling after a `Quit` -/

/-- The `RequestDataOnSimObjectType` calls of a trace. -/
def requests (t : List Event) : List Event :=
  t.filter fun e => match e with
    | .RequestDataOnSimObjectType _ => true
    | _ => false

/-- The part of a trace after its first send on `done`. -/
def afterQuit (t : List Event) : List Event :=
  (t.dropWhile fun e => decide (e ≠ Event.doneSend)).tail

/-- No request and no pull follows the first send on `done`. -/
def noPollAfterQuit (t : List Event) : Prop :=
  requests (afterQuit t) = [] ∧ (afterQuit t).count Event.GetNextDispatch = 0

instance (t : List Event) : Decidable (noPollAfterQuit t) := by
  unfold noPollAfterQuit; infer_instance

/-- An action made inside a `dispatchProc` call, the send on `done` apart: a pull, a line
or a write. -/
def inCall : Event → Bool
  | .GetNextDispatch => true
  | .logPrintln _ => true
  | .fmtPrintf _ _ => true
  | .SetDataOnSimObject _ _ _ _ _ _ => true
  | _ => false

/-- The order of the poll loop between an action `a` and the action `b` that directly
follows it: a receive from the ticker is followed by the request for
`DataDefTrackIrEnable`, a request by a pull, and a send on `done` by the request for
`DataDefCameraState` or by the next receive from the ticker. -/
def pollOrder (a b : Event) : Prop :=
  (a = Event.tickerRecv → b = Event.RequestDataOnSimObjectType DataDefTrackIrEnable)
  ∧ ((∃ d, a = Event.RequestDataOnSimObjectType d) → b = Event.GetNextDispatch)
  ∧ (a = Event.doneSend →
      b = Event.RequestDataOnSimObjectType DataDefCameraState ∨ b = Event.tickerRecv)

/-! ## Lemmas on the model -/

theorem eqZero_iff (v : Float64) : v.eqZero = true ↔ v = .finite 0 := by
  cases v <;> simp [Float64.eqZero]

/-- A call whose first result is an object-data message handles it and returns. -/
theorem dispatchProc_objectData (lib : SimConnect) (env : Env) (s : State)
    (d : DispatchResult) (data : SimObjectValue) (rest : List DispatchResult)
    (hr : 0 ≤ d.r1) (hd : d.ppData = .SimObjectDataByType data) :
    dispatchProc lib env s (d :: rest)
      = ⟨(caseSimObjectDataByType lib env s data).1,
          Event.GetNextDispatch :: (caseSimObjectDataByType lib env s data).2, rest⟩ := by
  have h : ¬ d.r1 < 0 := not_lt.mpr hr
  simp only [dispatchProc, h, if_false, hd]

/-- The handling of a tracking message that meets the trigger condition. -/
theorem case_trigger (lib : SimConnect) (env : Env) (s : State) (data : SimObjectValue)
    (hid : data.DefineID = DataDefTrackIrEnable) (ht : trigger s data) :
    caseSimObjectDataByType lib env s data
      = (⟨s.cameraState,
            if Since env.sinceAt s.debounce < 10 * Second then s.debounce else env.nowAt⟩,
          (if Since env.sinceAt s.debounce < 10 * Second then []
            else [Event.logPrintln [.str "Track IR disabled by sim"]])
          ++ [Event.SetDataOnSimObject DataDefTrackIrEnable data.ObjectID
                lib.DataSetFlagDefault 0 8 [.finite 1]]
          ++ (if Since env.sinceAt s.debounce < 10 * Second then []
            else [Event.logPrintln [.str "TracIR enabled by me"]])
          ++ (match env.setDataErr with
              | some e => [Event.logPrintln [.str "Error:", .err (some e)]]
              | none => [])) := by
  have ht2 : data.Value.eqZero = true ∧ s.cameraState > 1 ∧ s.cameraState < 6 := ht
  unfold caseSimObjectDataByType
  rw [if_pos hid, if_pos ht2]
  by_cases h : Since env.sinceAt s.debounce < 10 * Second <;> simp [h]

/-- The handling of an object-data message that does not meet the trigger condition and is
no camera-state message. -/
theorem case_no_trigger (lib : SimConnect) (env : Env) (s : State) (data : SimObjectValue)
    (hc : data.DefineID ≠ DataDefCameraState)
    (ht : data.DefineID = DataDefTrackIrEnable → ¬ trigger s data) :
    caseSimObjectDataByType lib env s data = (s, []) := by
  unfold caseSimObjectDataByType
  by_cases hid : data.DefineID = DataDefTrackIrEnable
  · have h := ht hid
    unfold trigger at h
    have h2 : ¬ (data.Value.eqZero = true ∧ s.cameraState > 1 ∧ s.cameraState < 6) := h
    rw [if_pos hid, if_neg h2]
  · rw [if_neg hid, if_neg hc]

/-- The handling of a camera-state message. -/
theorem case_camera (lib : SimConnect) (env : Env) (s : State) (data : SimObjectValue)
    (hc : data.DefineID = DataDefCameraState) :
    caseSimObjectDataByType lib env s data = (⟨DWord lib data.Value, s.debounce⟩, []) := by
  have hid : data.DefineID ≠ DataDefTrackIrEnable := by
    rw [hc]; decide
  unfold caseSimObjectDataByType
  rw [if_neg hid, if_pos hc]

/-- The no-data code is negative and is the one code that `onNegative` does not print. -/
theorem noData_silent (lib : SimConnect) :
    (noData lib).r1 < 0 ∧ onNegative lib (noData lib) = [] := by
  have h := lib.EFail_range
  have hu : uint32 ((lib.EFail : Int) - 4294967296) = lib.EFail := by
    unfold uint32
    have : ((lib.EFail : Int) - 4294967296) % 4294967296 = (lib.EFail : Int) := by omega
    rw [this]
    exact Int.toNat_natCast _
  refine ⟨?_, ?_⟩
  · show (lib.EFail : Int) - 4294967296 < 0
    omega
  · unfold onNegative
    show (if uint32 ((lib.EFail : Int) - 4294967296) ≠ lib.EFail then _ else _) = _
    rw [hu]
    simp

/-- The conversion of a non-negative value below 2^32 is its integer part. -/
theorem DWord_trunc (lib : SimConnect) (q : ℚ) (h0 : 0 ≤ q) (h1 : q < 4294967296) :
    DWord lib (.finite q) = ⌊q⌋₊ := by
  have hin : -1 < q ∧ q < 4294967296 := ⟨by linarith, h1⟩
  have hnum : 0 ≤ q.num := Rat.num_nonneg.mpr h0
  have hden : (0 : Int) ≤ (q.den : Int) := Int.natCast_nonneg _
  show (if -1 < q ∧ q < 4294967296 then (Int.tdiv q.num q.den).toNat
    else lib.convertUnrepresentable (.finite q) % 4294967296) = ⌊q⌋₊
  rw [if_pos hin, Int.tdiv_eq_ediv hnum hden, ← Rat.floor_def]
  rfl

/-! ## The reaction policy -/

/-- C1: when `dispatchProc` receives an object-data message for `DataDefTrackIrEnable`
whose `Value` is 0 while `1 < cameraState < 6`, it issues exactly one `SetDataOnSimObject`
call, whatever `debounce` holds and whatever the clock reads. -/
theorem trigger_implies_one_write (lib : SimConnect) (env : Env) (s : State)
    (d : DispatchResult) (data : SimObjectValue) (rest : List DispatchResult)
    (hr : 0 ≤ d.r1) (hd : d.ppData = .SimObjectDataByType data)
    (hid : data.DefineID = DataDefTrackIrEnable) (hv : data.Value = .finite 0)
    (h1 : 1 < s.cameraState) (h6 : s.cameraState < 6) :
    (writes (dispatchProc lib env s (d :: rest)).trace).length = 1 := by
  have ht : trigger s data := ⟨(eqZero_iff _).mpr hv, h1, h6⟩
  rw [dispatchProc_objectData lib env s d data rest hr hd, case_trigger lib env s data hid ht]
  cases env.setDataErr <;>
    by_cases h : Since env.sinceAt s.debounce < 10 * Second <;> simp [writes, h]

/-- Witness of C1: three seconds after the last logged trigger the write is still issued. -/
theorem trigger_implies_one_write_witness :
    (0 : Int) ≤ 0 ∧ 1 < 3 ∧ 3 < 6 ∧
    (writes (dispatchProc sdk (Env.atTime (103 * Second)) ⟨3, 100 * Second⟩
      [received (.SimObjectDataByType ⟨1, 7, 0, .finite 0⟩)]).trace).length = 1 :=
  ⟨by decide, by decide, by decide,
    trigger_implies_one_write sdk (Env.atTime (103 * Second)) ⟨3, 100 * Second⟩
      (received (.SimObjectDataByType ⟨1, 7, 0, .finite 0⟩)) ⟨1, 7, 0, .finite 0⟩ []
      (by decide) rfl rfl rfl (by decide) (by decide)⟩

/-- C2: when `dispatchProc` receives an object-data message while `cameraState` is outside
the open interval (1,6), or a `DataDefTrackIrEnable` message whose `Value` is not 0, it
issues no `SetDataOnSimObject` call, prints no line and leaves `debounce` as it was: the
call does nothing but pull the message. -/
theorem no_trigger_no_write (lib : SimConnect) (env : Env) (s : State)
    (d : DispatchResult) (data : SimObjectValue) (rest : List DispatchResult)
    (hr : 0 ≤ d.r1) (hd : d.ppData = .SimObjectDataByType data)
    (h : ¬ (1 < s.cameraState ∧ s.cameraState < 6)
      ∨ (data.DefineID = DataDefTrackIrEnable ∧ data.Value ≠ .finite 0)) :
    (dispatchProc lib env s (d :: rest)).trace = [Event.GetNextDispatch]
    ∧ writes (dispatchProc lib env s (d :: rest)).trace = []
    ∧ logLines (dispatchProc lib env s (d :: rest)).trace = []
    ∧ (dispatchProc lib env s (d :: rest)).state.debounce = s.debounce := by
  have hnt : ¬ trigger s data := by
    rintro ⟨hz, h1, h6⟩
    rcases h with h | ⟨_, hv⟩
    · exact h ⟨h1, h6⟩
    · exact hv ((eqZero_iff _).mp hz)
  rw [dispatchProc_objectData lib env s d data rest hr hd]
  by_cases hc : data.DefineID = DataDefCameraState
  · rw [case_camera lib env s data hc]
    exact ⟨rfl, rfl, rfl, rfl⟩
  · rw [case_no_trigger lib env s data hc (fun _ => hnt)]
    exact ⟨rfl, rfl, rfl, rfl⟩

/-- Witness of C2: `cameraState` is 1 and a tracking message delivers 0. -/
theorem no_trigger_no_write_witness :
    (0 : Int) ≤ 0 ∧ ¬ (1 < 1 ∧ 1 < 6) ∧
    (dispatchProc sdk (Env.atTime (100 * Second)) ⟨1, zeroTime⟩
      [received (.SimObjectDataByType ⟨1, 7, 0, .finite 0⟩)]).trace = [Event.GetNextDispatch]
    ∧ writes (dispatchProc sdk (Env.atTime (100 * Second)) ⟨1, zeroTime⟩
      [received (.SimObjectDataByType ⟨1, 7, 0, .finite 0⟩)]).trace = []
    ∧ logLines (dispatchProc sdk (Env.atTime (100 * Second)) ⟨1, zeroTime⟩
      [received (.SimObjectDataByType ⟨1, 7, 0, .finite 0⟩)]).trace = []
    ∧ (dispatchProc sdk (Env.atTime (100 * Second)) ⟨1, zeroTime⟩
      [received (.SimObjectDataByType ⟨1, 7, 0, .finite 0⟩)]).state.debounce = zeroTime :=
  ⟨by decide, by decide,
    no_trigger_no_write sdk (Env.atTime (100 * Second)) ⟨1, zeroTime⟩
      (received (.SimObjectDataByType ⟨1, 7, 0, .finite 0⟩)) ⟨1, 7, 0, .finite 0⟩ []
      (by decide) rfl (Or.inl (by decide))⟩

/-- C5: every `SetDataOnSimObject` call that `dispatchProc` issues on receiving an
object-data message has the definition `DataDefTrackIrEnable`, the object id of that
message, the flag `DataSetFlagDefault`, array index 0, size 8 and the one `float64` 1.0 as
its data. -/
theorem write_arguments (lib : SimConnect) (env : Env) (s : State)
    (d : DispatchResult) (data : SimObjectValue) (rest : List DispatchResult) (e : Event)
    (hr : 0 ≤ d.r1) (hd : d.ppData = .SimObjectDataByType data)
    (he : e ∈ writes (dispatchProc lib env s (d :: rest)).trace) :
    e = Event.SetDataOnSimObject DataDefTrackIrEnable data.ObjectID lib.DataSetFlagDefault
          0 8 [.finite 1] := by
  rw [dispatchProc_objectData lib env s d data rest hr hd] at he
  by_cases hc : data.DefineID = DataDefCameraState
  · rw [case_camera lib env s data hc] at he
    simp [writes] at he
  · by_cases ht : data.DefineID = DataDefTrackIrEnable ∧ trigger s data
    · rw [case_trigger lib env s data ht.1 ht.2] at he
      revert he
      cases env.setDataErr <;>
        by_cases h : Since env.sinceAt s.debounce < 10 * Second <;> simp [writes, h]
    · rw [case_no_trigger lib env s data hc (fun hid htr => ht ⟨hid, htr⟩)] at he
      simp [writes] at he

/-- Witness of C5: a write for the message of object 7 carries object id 7. -/
theorem write_arguments_witness :
    (0 : Int) ≤ 0 ∧
    Event.SetDataOnSimObject 0 7 0 0 8 [.finite 1]
      ∈ writes (dispatchProc sdk (Env.atTime (103 * Second)) ⟨3, 100 * Second⟩
          [received (.SimObjectDataByType ⟨1, 7, 0, .finite 0⟩)]).trace
    ∧ Event.SetDataOnSimObject 0 7 0 0 8 [.finite 1]
      = Event.SetDataOnSimObject DataDefTrackIrEnable 7 sdk.DataSetFlagDefault
          0 8 [.finite 1] :=
  ⟨by decide, by decide,
    write_arguments sdk (Env.atTime (103 * Second)) ⟨3, 100 * Second⟩
      (received (.SimObjectDataByType ⟨1, 7, 0, .finite 0⟩)) ⟨1, 7, 0, .finite 0⟩ []
      (Event.SetDataOnSimObject 0 7 0 0 8 [.finite 1]) (by decide) rfl (by decide)⟩

/-- C6: when `dispatchProc` receives an object-data message for `DataDefCameraState` whose
`Value` is `q` with `0 ≤ q < 2^32`, it sets `cameraState` to the integer part `n` of `q`
(`n ≤ q < n + 1`) and does nothing else: the trace holds the pull alone (no write, no line,
no send on `done`) and `debounce` is unchanged. -/
theorem camera_state_update (lib : SimConnect) (env : Env) (s : State)
    (d : DispatchResult) (data : SimObjectValue) (rest : List DispatchResult) (q : ℚ)
    (hr : 0 ≤ d.r1) (hd : d.ppData = .SimObjectDataByType data)
    (hid : data.DefineID = DataDefCameraState) (hv : data.Value = .finite q)
    (h0 : 0 ≤ q) (h1 : q < 2 ^ 32) :
    ∃ n : Nat, (n : ℚ) ≤ q ∧ q < n + 1
      ∧ dispatchProc lib env s (d :: rest) = ⟨⟨n, s.debounce⟩, [Event.GetNextDispatch], rest⟩
      ∧ writes (dispatchProc lib env s (d :: rest)).trace = []
      ∧ logLines (dispatchProc lib env s (d :: rest)).trace = []
      ∧ Event.doneSend ∉ (dispatchProc lib env s (d :: rest)).trace := by
  have h1' : q < 4294967296 := by norm_num at h1; exact h1
  refine ⟨⌊q⌋₊, Nat.floor_le h0, Nat.lt_floor_add_one q, ?_⟩
  rw [dispatchProc_objectData lib env s d data rest hr hd, case_camera lib env s data hid,
    hv, DWord_trunc lib q h0 h1']
  refine ⟨rfl, rfl, rfl, ?_⟩
  simp

/-- Witness of C6: the value 3.5 sets `cameraState` to 3. -/
theorem camera_state_update_witness :
    (0 : Int) ≤ 0 ∧ (0 : ℚ) ≤ 7 / 2 ∧ (7 / 2 : ℚ) < 2 ^ 32 ∧
    ∃ n : Nat, (n : ℚ) ≤ 7 / 2 ∧ (7 / 2 : ℚ) < n + 1
      ∧ dispatchProc sdk (Env.atTime 5) ⟨0, zeroTime⟩
          [received (.SimObjectDataByType ⟨1, 7, 1, .finite (7 / 2)⟩)]
        = ⟨⟨n, zeroTime⟩, [Event.GetNextDispatch], []⟩
      ∧ writes (dispatchProc sdk (Env.atTime 5) ⟨0, zeroTime⟩
          [received (.SimObjectDataByType ⟨1, 7, 1, .finite (7 / 2)⟩)]).trace = []
      ∧ logLines (dispatchProc sdk (Env.atTime 5) ⟨0, zeroTime⟩
          [received (.SimObjectDataByType ⟨1, 7, 1, .finite (7 / 2)⟩)]).trace = []
      ∧ Event.doneSend ∉ (dispatchProc sdk (Env.atTime 5) ⟨0, zeroTime⟩
          [received (.SimObjectDataByType ⟨1, 7, 1, .finite (7 / 2)⟩)]).trace :=
  ⟨by decide, by norm_num, by norm_num,
    camera_state_update sdk (Env.atTime 5) ⟨0, zeroTime⟩
      (received (.SimObjectDataByType ⟨1, 7, 1, .finite (7 / 2)⟩))
      ⟨1, 7, 1, .finite (7 / 2)⟩ [] (7 / 2) (by decide) rfl rfl rfl (by norm_num)
      (by norm_num)⟩

/-- C7: for a tracking message that meets the trigger condition, the state after
`dispatchProc` is the same whether `SetDataOnSimObject` returns an error or nil; with an
error the trace is the trace without error followed by the one line `Error: <err>`, the
call returns with the same pending results, and nothing is sent on `done`. -/
theorem write_failure_neutral (lib : SimConnect) (s : State) (tSince tNow : Int)
    (err : String) (d : DispatchResult) (data : SimObjectValue) (rest : List DispatchResult)
    (hr : 0 ≤ d.r1) (hd : d.ppData = .SimObjectDataByType data)
    (hid : data.DefineID = DataDefTrackIrEnable) (ht : trigger s data) :
    (dispatchProc lib ⟨tSince, tNow, some err⟩ s (d :: rest)).state
      = (dispatchProc lib ⟨tSince, tNow, none⟩ s (d :: rest)).state
    ∧ (dispatchProc lib ⟨tSince, tNow, some err⟩ s (d :: rest)).trace
      = (dispatchProc lib ⟨tSince, tNow, none⟩ s (d :: rest)).trace
          ++ [Event.logPrintln [.str "Error:", .err (some err)]]
    ∧ (dispatchProc lib ⟨tSince, tNow, some err⟩ s (d :: rest)).pending = rest
    ∧ (dispatchProc lib ⟨tSince, tNow, none⟩ s (d :: rest)).pending = rest
    ∧ Event.doneSend ∉ (dispatchProc lib ⟨tSince, tNow, some err⟩ s (d :: rest)).trace
    ∧ Event.doneSend ∉ (dispatchProc lib ⟨tSince, tNow, none⟩ s (d :: rest)).trace := by
  rw [dispatchProc_objectData lib _ s d data rest hr hd,
    dispatchProc_objectData lib _ s d data rest hr hd,
    case_trigger lib _ s data hid ht, case_trigger lib _ s data hid ht]
  by_cases h : Since tSince s.debounce < 10 * Second <;> simp [h]

/-- Witness of C7: a failed write three seconds after the last logged trigger. -/
theorem write_failure_neutral_witness :
    (0 : Int) ≤ 0 ∧ trigger ⟨3, 100 * Second⟩ ⟨1, 7, 0, .finite 0⟩ ∧
    (dispatchProc sdk ⟨103 * Second, 103 * Second, some "E_FAIL"⟩ ⟨3, 100 * Second⟩
        [received (.SimObjectDataByType ⟨1, 7, 0, .finite 0⟩)]).trace
      = [Event.GetNextDispatch, Event.SetDataOnSimObject 0 7 0 0 8 [.finite 1],
          Event.logPrintln [.str "Error:", .err (some "E_FAIL")]] :=
  ⟨by decide, by decide,
    ((write_failure_neutral sdk ⟨3, 100 * Second⟩ (103 * Second) (103 * Second) "E_FAIL"
      (received (.SimObjectDataByType ⟨1, 7, 0, .finite 0⟩)) ⟨1, 7, 0, .finite 0⟩ []
      (by decide) rfl rfl (by decide)).2.1).trans (by decide)⟩

/-! ## The dispatch decoder -/

/-- C8: when `GetNextDispatch` returns a negative code, `dispatchProc` handles no message:
the state is unchanged, nothing is written, nothing is sent on `done`, `GetNextDispatch`
is called once and the results after it stay pending; the call prints nothing when
`uint32(r1)` is `EFail` and otherwise prints the one line `GetNextDispatch error`. -/
theorem negative_result (lib : SimConnect) (env : Env) (s : State)
    (d : DispatchResult) (rest : List DispatchResult) (hr : d.r1 < 0) :
    (dispatchProc lib env s (d :: rest)).state = s
    ∧ (dispatchProc lib env s (d :: rest)).pending = rest
    ∧ writes (dispatchProc lib env s (d :: rest)).trace = []
    ∧ Event.doneSend ∉ (dispatchProc lib env s (d :: rest)).trace
    ∧ (dispatchProc lib env s (d :: rest)).trace.count Event.GetNextDispatch = 1
    ∧ (logLines (dispatchProc lib env s (d :: rest)).trace ≠ [] ↔ uint32 d.r1 ≠ lib.EFail)
    ∧ (uint32 d.r1 = lib.EFail →
        (dispatchProc lib env s (d :: rest)).trace = [Event.GetNextDispatch])
    ∧ (uint32 d.r1 ≠ lib.EFail →
        (dispatchProc lib env s (d :: rest)).trace
          = [Event.GetNextDispatch,
              Event.fmtPrintf "GetNextDispatch error: %d %s\n" [.int d.r1, .err d.err]]) := by
  have h : dispatchProc lib env s (d :: rest)
      = ⟨s, Event.GetNextDispatch :: onNegative lib d, rest⟩ := by
    simp only [dispatchProc, hr, if_true]
  rw [h]
  unfold onNegative
  by_cases hu : uint32 d.r1 = lib.EFail <;> simp [hu, writes, logLines]

/-- Witness of C8: the no-data code is silent, the code -1 is printed. -/
theorem negative_result_witness :
    ((-2147467259 : Int) < 0 ∧
      (dispatchProc sdk (Env.atTime 5) ⟨3, zeroTime⟩
        [⟨.unknown 0, 0, -2147467259, none⟩, received .Quit]).trace
        = [Event.GetNextDispatch])
    ∧ (dispatchProc sdk (Env.atTime 5) ⟨3, zeroTime⟩
        [⟨.unknown 0, 0, -1, some "x"⟩, received .Quit]).trace
        = [Event.GetNextDispatch,
            Event.fmtPrintf "GetNextDispatch error: %d %s\n" [.int (-1), .err (some "x")]] :=
  ⟨⟨by decide,
    (negative_result sdk (Env.atTime 5) ⟨3, zeroTime⟩ ⟨.unknown 0, 0, -2147467259, none⟩
      [received .Quit] (by decide)).2.2.2.2.2.2.1 (by decide)⟩,
    by decide⟩

/-- One call of `dispatchProc` in closed form: the run of `Open` and `Exception` messages,
then the one result after it. -/
theorem dispatchProc_drain (lib : SimConnect) (env : Env) (s : State)
    (q : List DispatchResult) :
    dispatchProc lib env s q
      = ⟨(lastItem lib env s (q.dropWhile drainsAgain).head?).1,
          runLines (q.takeWhile drainsAgain)
            ++ (lastItem lib env s (q.dropWhile drainsAgain).head?).2,
          (q.dropWhile drainsAgain).tail⟩ := by
  induction q with
  | nil =>
    simp [dispatchProc, lastItem, runLines, (noData_silent lib).2]
  | cons d rest ih =>
    by_cases hr : d.r1 < 0
    · have hd : drainsAgain d = false := by
        simp [drainsAgain, hr]
      simp [dispatchProc, lastItem, runLines, hr, hd, List.takeWhile_cons,
        List.dropWhile_cons]
    · have hr0 : 0 ≤ d.r1 := not_lt.mp hr
      rcases hp : d.ppData with _ | _ | c | data | i
      · have hd : drainsAgain d = true := by simp [drainsAgain, hr0, hp]
        simp [dispatchProc, runLines, drainLine, hr, hd, hp, ih, List.takeWhile_cons,
          List.dropWhile_cons]
      · have hd : drainsAgain d = false := by simp [drainsAgain, hp]
        simp [dispatchProc, lastItem, runLines, hr, hd, hp, List.takeWhile_cons,
          List.dropWhile_cons]
      · have hd : drainsAgain d = true := by simp [drainsAgain, hr0, hp]
        simp [dispatchProc, runLines, drainLine, hr, hd, hp, ih, List.takeWhile_cons,
          List.dropWhile_cons]
      · have hd : drainsAgain d = false := by simp [drainsAgain, hp]
        simp [dispatchProc, lastItem, runLines, hr, hd, hp, List.takeWhile_cons,
          List.dropWhile_cons]
      · have hd : drainsAgain d = false := by simp [drainsAgain, hp]
        simp [dispatchProc, lastItem, runLines, hr, hd, hp, List.takeWhile_cons,
          List.dropWhile_cons]

theorem dropWhile_head_tail (p : DispatchResult → Bool) (q : List DispatchResult) :
    (q.dropWhile p).head? = q[(q.takeWhile p).length]?
    ∧ (q.dropWhile p).tail = q.drop ((q.takeWhile p).length + 1) := by
  induction q with
  | nil => simp
  | cons d rest ih =>
    by_cases h : p d = true
    · simp [List.takeWhile_cons, List.dropWhile_cons, h, ih]
    · simp [List.takeWhile_cons, List.dropWhile_cons, h]

theorem count_runLines (run : List DispatchResult) :
    (runLines run).count Event.GetNextDispatch = run.length := by
  induction run with
  | nil => rfl
  | cons d rest ih =>
    have h : runLines (d :: rest)
        = Event.GetNextDispatch :: drainLine d :: runLines rest := by
      simp [runLines]
    have hl : drainLine d ≠ Event.GetNextDispatch := by
      unfold drainLine; split <;> simp
    rw [h, List.count_cons_self, List.count_cons_of_ne hl.symm, ih, List.length_cons]

/-- The handling of an object-data message pulls nothing and sends nothing on `done`. -/
theorem case_no_pull (lib : SimConnect) (env : Env) (s : State) (data : SimObjectValue) :
    Event.GetNextDispatch ∉ (caseSimObjectDataByType lib env s data).2
    ∧ Event.doneSend ∉ (caseSimObjectDataByType lib env s data).2 := by
  by_cases hc : data.DefineID = DataDefCameraState
  · rw [case_camera lib env s data hc]; simp
  · by_cases ht : data.DefineID = DataDefTrackIrEnable ∧ trigger s data
    · rw [case_trigger lib env s data ht.1 ht.2]
      cases env.setDataErr <;>
        by_cases h : Since env.sinceAt s.debounce < 10 * Second <;> simp [h]
    · rw [case_no_trigger lib env s data hc (fun hid htr => ht ⟨hid, htr⟩)]; simp

theorem count_lastItem (lib : SimConnect) (env : Env) (s : State)
    (o : Option DispatchResult) :
    (lastItem lib env s o).2.count Event.GetNextDispatch = 1 := by
  cases o with
  | none => simp [lastItem]
  | some d =>
    by_cases hr : d.r1 < 0
    · by_cases hu : uint32 d.r1 = lib.EFail <;> simp [lastItem, hr, onNegative, hu]
    · rcases hp : d.ppData with _ | _ | c | data | i
      · simp [lastItem, hr, hp]
      · simp [lastItem, hr, hp]
      · simp [lastItem, hr, hp]
      · have h := (case_no_pull lib env s data).1
        simp [lastItem, hr, hp, List.count_eq_zero_of_not_mem h]
      · simp [lastItem, hr, hp]

/-- C9: one call of `dispatchProc` on a finite queue `q` of pending results returns, and
with `run` the longest leading run of `Open` and `Exception` messages of `q`: it consumes
`run` and the one result after it; it calls `GetNextDispatch` once for each; its trace is a
pull and a line for each message of `run`, then the pull that ends the call and what the
result after `run` causes: nothing when none is pending, the handling of a negative code,
for a `Quit` one line and one send on `done`, for an object-data message the reaction of
`caseSimObjectDataByType` once, for another kind one printed line; the state changes only
by that reaction. -/
theorem drain_discipline (lib : SimConnect) (env : Env) (s : State)
    (q : List DispatchResult) :
    (dispatchProc lib env s q).pending = q.drop ((q.takeWhile drainsAgain).length + 1)
    ∧ (dispatchProc lib env s q).trace.count Event.GetNextDispatch
        = (q.takeWhile drainsAgain).length + 1
    ∧ (∀ d ∈ q.takeWhile drainsAgain,
        0 ≤ d.r1 ∧ (d.ppData = .Open ∨ ∃ c, d.ppData = .Exception c))
    ∧ (∀ d, q[(q.takeWhile drainsAgain).length]? = some d →
        ¬ (0 ≤ d.r1 ∧ (d.ppData = .Open ∨ ∃ c, d.ppData = .Exception c)))
    ∧ (q[(q.takeWhile drainsAgain).length]? = none →
        (dispatchProc lib env s q).trace
          = runLines (q.takeWhile drainsAgain) ++ [Event.GetNextDispatch]
        ∧ (dispatchProc lib env s q).state = s)
    ∧ (∀ d, q[(q.takeWhile drainsAgain).length]? = some d → d.r1 < 0 →
        (dispatchProc lib env s q).trace
          = runLines (q.takeWhile drainsAgain) ++ Event.GetNextDispatch :: onNegative lib d
        ∧ (dispatchProc lib env s q).state = s)
    ∧ (∀ d, q[(q.takeWhile drainsAgain).length]? = some d → 0 ≤ d.r1 → d.ppData = .Quit →
        (dispatchProc lib env s q).trace
          = runLines (q.takeWhile drainsAgain)
            ++ [Event.GetNextDispatch,
                Event.logPrintln [.str "Disconnected from Flight Simulator."],
                Event.doneSend]
        ∧ (dispatchProc lib env s q).state = s)
    ∧ (∀ d data, q[(q.takeWhile drainsAgain).length]? = some d → 0 ≤ d.r1 →
        d.ppData = .SimObjectDataByType data →
        (dispatchProc lib env s q).trace
          = runLines (q.takeWhile drainsAgain)
            ++ Event.GetNextDispatch :: (caseSimObjectDataByType lib env s data).2
        ∧ (dispatchProc lib env s q).state = (caseSimObjectDataByType lib env s data).1)
    ∧ (∀ d i, q[(q.takeWhile drainsAgain).length]? = some d → 0 ≤ d.r1 →
        d.ppData = .unknown i →
        (dispatchProc lib env s q).trace
          = runLines (q.takeWhile drainsAgain)
            ++ [Event.GetNextDispatch, Event.fmtPrintf "recieved: %v\n" [.pointer d.ptr]]
        ∧ (dispatchProc lib env s q).state = s) := by
  have hq := dropWhile_head_tail drainsAgain q
  have hda : ∀ d : DispatchResult, drainsAgain d = true ↔
      (0 ≤ d.r1 ∧ (d.ppData = .Open ∨ ∃ c, d.ppData = .Exception c)) := by
    intro d
    unfold drainsAgain
    rcases hp : d.ppData with _ | _ | c | data | i <;> simp
  rw [dispatchProc_drain lib env s q, hq.1, hq.2]
  refine ⟨rfl, ?_, ?_, ?_, ?_, ?_, ?_, ?_, ?_⟩
  · show (runLines _ ++ _).count Event.GetNextDispatch = _
    rw [List.count_append, count_runLines, count_lastItem]
  · intro d hd
    exact (hda d).mp (List.mem_takeWhile_imp hd)
  · intro d hd hc
    have h1 : (q.dropWhile drainsAgain).head? = some d := by rw [hq.1, hd]
    have h2 := List.head?_dropWhile_not drainsAgain q
    rw [h1] at h2
    simp [(hda d).mpr hc] at h2
  · intro hn
    simp [hn, lastItem]
  · intro d hd hr
    simp [hd, lastItem, hr]
  · intro d hd hr hp
    simp [hd, lastItem, not_lt.mpr hr, hp]
  · intro d data hd hr hp
    simp [hd, lastItem, not_lt.mpr hr, hp]
  · intro d i hd hr hp
    simp [hd, lastItem, not_lt.mpr hr, hp]

/-- Witness of C9: an `Open`, an `Exception` and a `Quit` are consumed with three pulls,
the object-data message after the `Quit` stays pending. -/
theorem drain_discipline_witness :
    (dispatchProc sdk (Env.atTime 5) ⟨3, zeroTime⟩
      [received .Open, received (.Exception 3), received .Quit,
        received (.SimObjectDataByType ⟨1, 7, 0, .finite 0⟩)]).pending
      = [received (.SimObjectDataByType ⟨1, 7, 0, .finite 0⟩)]
    ∧ (dispatchProc sdk (Env.atTime 5) ⟨3, zeroTime⟩
      [received .Open, received (.Exception 3), received .Quit,
        received (.SimObjectDataByType ⟨1, 7, 0, .finite 0⟩)]).trace.count
          Event.GetNextDispatch = 3
    ∧ (dispatchProc sdk (Env.atTime 5) ⟨3, zeroTime⟩
      [received .Open, received (.Exception 3), received .Quit,
        received (.SimObjectDataByType ⟨1, 7, 0, .finite 0⟩)]).trace
      = [Event.GetNextDispatch, Event.logPrintln [.str "Connected to Flight Simulator."],
          Event.GetNextDispatch, Event.logPrintln [.str "Error:", .int 3],
          Event.GetNextDispatch,
          Event.logPrintln [.str "Disconnected from Flight Simulator."],
          Event.doneSend] :=
  ⟨(drain_discipline sdk (Env.atTime 5) ⟨3, zeroTime⟩
      [received .Open, received (.Exception 3), received .Quit,
        received (.SimObjectDataByType ⟨1, 7, 0, .finite 0⟩)]).1.trans (by decide),
    (drain_discipline sdk (Env.atTime 5) ⟨3, zeroTime⟩
      [received .Open, received (.Exception 3), received .Quit,
        received (.SimObjectDataByType ⟨1, 7, 0, .finite 0⟩)]).2.1.trans (by decide),
    ((drain_discipline sdk (Env.atTime 5) ⟨3, zeroTime⟩
      [received .Open, received (.Exception 3), received .Quit,
        received (.SimObjectDataByType ⟨1, 7, 0, .finite 0⟩)]).2.2.2.2.2.2.1
        (received .Quit) (by decide) (by decide) rfl).1.trans (by decide)⟩

/-! ## The debounce of the log line -/

theorem since_lt (a b : Int) : Since a b < 10 * Second ↔ a < b + 10 * Second := by
  unfold Since maxDuration minDuration Second
  split_ifs <;> omega

/-- What the delivery of a tracking message does, by the trigger condition. -/
theorem deliver_tracking (lib : SimConnect) (env : Env) (s : State) (data : SimObjectValue)
    (hid : data.DefineID = DataDefTrackIrEnable) :
    (deliver lib env s data).state.cameraState = s.cameraState
    ∧ (loggedDisabled (deliver lib env s data)
        ↔ trigger s data ∧ s.debounce + 10 * Second ≤ env.sinceAt)
    ∧ (loggedDisabled (deliver lib env s data) →
        (deliver lib env s data).state.debounce = env.nowAt)
    ∧ (¬ loggedDisabled (deliver lib env s data) →
        (deliver lib env s data).state.debounce = s.debounce)
    ∧ (writes (deliver lib env s data).trace).length = if trigger s data then 1 else 0 := by
  have hc : data.DefineID ≠ DataDefCameraState := by rw [hid]; decide
  unfold deliver loggedDisabled
  rw [dispatchProc_objectData lib env s _ data [] (le_refl _) rfl]
  by_cases ht : trigger s data
  · rw [case_trigger lib env s data hid ht]
    have hs := since_lt env.sinceAt s.debounce
    cases env.setDataErr <;>
      by_cases h : Since env.sinceAt s.debounce < 10 * Second <;>
        simp [h, ht, writes] <;> omega
  · rw [case_no_trigger lib env s data hc (fun _ => ht)]
    simp [ht, writes]

theorem trigger_congr (s s' : State) (data : SimObjectValue)
    (h : s'.cameraState = s.cameraState) : trigger s' data ↔ trigger s data := by
  unfold trigger; rw [h]

theorem sorted_readings (m : Env × SimObjectValue) (ms : List (Env × SimObjectValue))
    (h : (clockReadings (m :: ms)).Sorted (· ≤ ·)) :
    m.1.sinceAt ≤ m.1.nowAt ∧ (clockReadings ms).Sorted (· ≤ ·) := by
  have h1 : clockReadings (m :: ms) = m.1.sinceAt :: m.1.nowAt :: clockReadings ms := by
    simp [clockReadings]
  rw [h1] at h
  have h2 := List.sorted_cons.mp h
  exact ⟨h2.1 _ (List.mem_cons_self _ _), (List.sorted_cons.mp h2.2).2⟩

/-- Every message logged in a run from `s` is read at least 10 seconds after
`s.debounce`. -/
theorem logged_after_debounce (lib : SimConnect) (ms : List (Env × SimObjectValue)) :
    ∀ s : State, (∀ m ∈ ms, m.2.DefineID = DataDefTrackIrEnable) →
      (clockReadings ms).Sorted (· ≤ ·) →
      ∀ b ∈ ms.zip (deliverAll lib s ms), loggedDisabled b.2 →
        s.debounce + 10 * Second ≤ b.1.1.sinceAt := by
  induction ms with
  | nil => intro s _ _ b hb; simp at hb
  | cons m ms ih =>
    intro s hid hsorted b hb hlog
    obtain ⟨env, data⟩ := m
    have hd := deliver_tracking lib env s data (hid _ (List.mem_cons_self _ _))
    have hs := sorted_readings (env, data) ms hsorted
    have hb' : b = ((env, data), deliver lib env s data)
        ∨ b ∈ ms.zip (deliverAll lib (deliver lib env s data).state ms) := by
      simpa [deliverAll] using hb
    rcases hb' with hb' | hb'
    · rw [hb'] at hlog ⊢
      exact (hd.2.1.mp hlog).2
    · have h := ih (deliver lib env s data).state
        (fun m hm => hid m (List.mem_cons_of_mem _ hm)) hs.2 b hb' hlog
      by_cases hl : loggedDisabled (deliver lib env s data)
      · have h1 := hd.2.2.1 hl
        have h2 := (hd.2.1.mp hl).2
        have h3 : env.sinceAt ≤ env.nowAt := hs.1
        have h4 : (0 : Int) ≤ 10 * Second := by unfold Second; omega
        omega
      · have h1 := hd.2.2.2.1 hl
        omega

/-- C3: for every finite sequence of `DataDefTrackIrEnable` messages, each handled by a
`dispatchProc` call, with non-decreasing readings of the clock: of any two calls that log
"Track IR disabled by sim", the later one reads the clock at least 10 seconds after the
earlier one stored it in `debounce` (so any reading of the later is at least 10 seconds
after any reading of the earlier); and the number of `SetDataOnSimObject` calls is the
number of messages that meet the trigger condition (`Value == 0`, `1 < cameraState < 6`). -/
theorem log_debounce (lib : SimConnect) (s : State) (ms : List (Env × SimObjectValue))
    (hid : ∀ m ∈ ms, m.2.DefineID = DataDefTrackIrEnable)
    (hsorted : (clockReadings ms).Sorted (· ≤ ·)) :
    (ms.zip (deliverAll lib s ms)).Pairwise
      (fun a b => loggedDisabled a.2 → loggedDisabled b.2 →
        a.1.1.nowAt + 10 * Second ≤ b.1.1.sinceAt
        ∧ a.1.1.sinceAt + 10 * Second ≤ b.1.1.sinceAt
        ∧ a.1.1.nowAt + 10 * Second ≤ b.1.1.nowAt)
    ∧ ((deliverAll lib s ms).map fun o => (writes o.trace).length).sum
        = ms.countP fun m => decide (trigger s m.2) := by
  induction ms generalizing s with
  | nil => simp [deliverAll]
  | cons m ms ih =>
    obtain ⟨env, data⟩ := m
    have hd := deliver_tracking lib env s data (hid _ (List.mem_cons_self _ _))
    have hs := sorted_readings (env, data) ms hsorted
    have hid' : ∀ m ∈ ms, m.2.DefineID = DataDefTrackIrEnable :=
      fun m hm => hid m (List.mem_cons_of_mem _ hm)
    have ih' := ih (deliver lib env s data).state hid' hs.2
    have hz : (((env, data) :: ms).zip (deliverAll lib s ((env, data) :: ms)))
        = ((env, data), deliver lib env s data)
          :: ms.zip (deliverAll lib (deliver lib env s data).state ms) := by
      simp [deliverAll]
    refine ⟨?_, ?_⟩
    · rw [hz, List.pairwise_cons]
      refine ⟨?_, ih'.1⟩
      intro b hb hla hlb
      have h1 := logged_after_debounce lib ms (deliver lib env s data).state hid' hs.2 b hb hlb
      have h2 := hd.2.2.1 hla
      have h3 : env.sinceAt ≤ env.nowAt := hs.1
      have h4 : b.1.1.sinceAt ≤ b.1.1.nowAt := by
        have hm : b.1 ∈ ms := (List.of_mem_zip hb).1
        obtain ⟨l1, l2, hl⟩ := List.append_of_mem hm
        have hs2 := hs.2
        rw [hl] at hs2
        have h5 : clockReadings (l1 ++ b.1 :: l2)
            = clockReadings l1 ++ clockReadings (b.1 :: l2) := by
          simp [clockReadings]
        rw [h5] at hs2
        exact (sorted_readings b.1 l2 (List.pairwise_append.mp hs2).2.1).1
      dsimp only
      refine ⟨?_, ?_, ?_⟩ <;> omega
    · have hc : (ms.countP fun m => decide (trigger (deliver lib env s data).state m.2))
          = ms.countP fun m => decide (trigger s m.2) := by
        congr 1
        funext m
        exact decide_eq_decide.mpr (trigger_congr _ _ _ hd.1)
      have h5 := ih'.2
      rw [hc] at h5
      have h6 : (deliverAll lib s ((env, data) :: ms))
          = deliver lib env s data :: deliverAll lib (deliver lib env s data).state ms := rfl
      rw [h6, List.map_cons, List.sum_cons, h5, hd.2.2.2.2, List.countP_cons]
      by_cases ht : trigger s data <;> simp [ht]
      all_goals omega

/-- Witness of C3: in the sample run the first and third message are logged, 11 seconds
apart, and all three trigger a write. -/
theorem log_debounce_witness :
    (∀ m ∈ sampleRun, m.2.DefineID = DataDefTrackIrEnable)
    ∧ (clockReadings sampleRun).Sorted (· ≤ ·)
    ∧ (deliverAll sdk ⟨3, zeroTime⟩ sampleRun).map (fun o => decide (loggedDisabled o))
        = [true, false, true]
    ∧ sampleRun.countP (fun m => decide (trigger ⟨3, zeroTime⟩ m.2)) = 3
    ∧ (sampleRun.zip (deliverAll sdk ⟨3, zeroTime⟩ sampleRun)).Pairwise
        (fun a b => loggedDisabled a.2 → loggedDisabled b.2 →
          a.1.1.nowAt + 10 * Second ≤ b.1.1.sinceAt
          ∧ a.1.1.sinceAt + 10 * Second ≤ b.1.1.sinceAt
          ∧ a.1.1.nowAt + 10 * Second ≤ b.1.1.nowAt)
    ∧ ((deliverAll sdk ⟨3, zeroTime⟩ sampleRun).map fun o => (writes o.trace).length).sum
        = sampleRun.countP fun m => decide (trigger ⟨3, zeroTime⟩ m.2) :=
  ⟨by decide, by decide, by decide, by decide,
    log_debounce sdk ⟨3, zeroTime⟩ sampleRun (by decide) (by decide)⟩

/-- The delivery of a camera-state message of value 3 in the initial state. -/
theorem deliver_camera_three (lib : SimConnect) (env : Env) (cam : SimObjectValue)
    (hid : cam.DefineID = DataDefCameraState) (hv : cam.Value = .finite 3) :
    deliver lib env State.init cam = ⟨⟨3, zeroTime⟩, [Event.GetNextDispatch], []⟩ := by
  have h3 : ⌊(3 : ℚ)⌋₊ = 3 := Nat.floor_ofNat 3
  unfold deliver
  rw [dispatchProc_objectData lib env State.init _ cam [] (le_refl _) rfl,
    case_camera lib env State.init cam hid, hv,
    DWord_trunc lib 3 (by norm_num) (by norm_num), h3]
  rfl

/-- C4: from the initial state (`cameraState` 0, `debounce` the zero time), a camera-state
message of value 3 and then tracking messages of value 0 handled 0, 3 and 11 seconds after
an instant `T0` of a running clock (at least 10 seconds after the zero time): the camera
message causes no write and no line, each of the three tracking messages causes one write,
and "Track IR disabled by sim" is logged for the first and the third only. -/
theorem startup_scenario (lib : SimConnect) (T0 : Int) (envCam : Env)
    (e1 e2 e3 : Option String) (cam t1 t2 t3 : SimObjectValue)
    (hcam : cam.DefineID = DataDefCameraState ∧ cam.Value = .finite 3)
    (h1 : t1.DefineID = DataDefTrackIrEnable ∧ t1.Value = .finite 0)
    (h2 : t2.DefineID = DataDefTrackIrEnable ∧ t2.Value = .finite 0)
    (h3 : t3.DefineID = DataDefTrackIrEnable ∧ t3.Value = .finite 0)
    (hT : zeroTime + 10 * Second ≤ T0) :
    (deliverAll lib State.init
      [(envCam, cam), (⟨T0, T0, e1⟩, t1),
        (⟨T0 + 3 * Second, T0 + 3 * Second, e2⟩, t2),
        (⟨T0 + 11 * Second, T0 + 11 * Second, e3⟩, t3)]).map
      (fun o => ((writes o.trace).length, decide (loggedDisabled o)))
    = [(0, false), (1, true), (1, false), (1, true)] := by
  have hc := deliver_camera_three lib envCam cam hcam.1 hcam.2
  have d1 := deliver_tracking lib ⟨T0, T0, e1⟩ ⟨3, zeroTime⟩ t1 h1.1
  have tr1 : trigger ⟨3, zeroTime⟩ t1 := ⟨(eqZero_iff _).mpr h1.2, by decide, by decide⟩
  have l1 : loggedDisabled (deliver lib ⟨T0, T0, e1⟩ ⟨3, zeroTime⟩ t1) :=
    d1.2.1.mpr ⟨tr1, hT⟩
  have c2 := d1.1
  have b2 := d1.2.2.1 l1
  have d2 := deliver_tracking lib ⟨T0 + 3 * Second, T0 + 3 * Second, e2⟩
    (deliver lib ⟨T0, T0, e1⟩ ⟨3, zeroTime⟩ t1).state t2 h2.1
  have tr2 : trigger (deliver lib ⟨T0, T0, e1⟩ ⟨3, zeroTime⟩ t1).state t2 :=
    ⟨(eqZero_iff _).mpr h2.2, by rw [c2]; decide, by rw [c2]; decide⟩
  have l2 : ¬ loggedDisabled (deliver lib ⟨T0 + 3 * Second, T0 + 3 * Second, e2⟩
      (deliver lib ⟨T0, T0, e1⟩ ⟨3, zeroTime⟩ t1).state t2) := by
    intro h
    have h' := (d2.2.1.mp h).2
    rw [b2] at h'
    unfold Second at h'
    dsimp only at h'
    omega
  have c3 := d2.1.trans c2
  have b3 := (d2.2.2.2.1 l2).trans b2
  have d3 := deliver_tracking lib ⟨T0 + 11 * Second, T0 + 11 * Second, e3⟩
    (deliver lib ⟨T0 + 3 * Second, T0 + 3 * Second, e2⟩
      (deliver lib ⟨T0, T0, e1⟩ ⟨3, zeroTime⟩ t1).state t2).state t3 h3.1
  have tr3 : trigger (deliver lib ⟨T0 + 3 * Second, T0 + 3 * Second, e2⟩
      (deliver lib ⟨T0, T0, e1⟩ ⟨3, zeroTime⟩ t1).state t2).state t3 :=
    ⟨(eqZero_iff _).mpr h3.2, by rw [c3]; decide, by rw [c3]; decide⟩
  have l3 : loggedDisabled (deliver lib ⟨T0 + 11 * Second, T0 + 11 * Second, e3⟩
      (deliver lib ⟨T0 + 3 * Second, T0 + 3 * Second, e2⟩
        (deliver lib ⟨T0, T0, e1⟩ ⟨3, zeroTime⟩ t1).state t2).state t3) := by
    refine d3.2.1.mpr ⟨tr3, ?_⟩
    rw [b3]
    unfold Second
    dsimp only
    omega
  have w1 := d1.2.2.2.2
  have w2 := d2.2.2.2.2
  have w3 := d3.2.2.2.2
  rw [if_pos tr1] at w1
  rw [if_pos tr2] at w2
  rw [if_pos tr3] at w3
  have hl0 : ¬ loggedDisabled
      (⟨⟨3, zeroTime⟩, [Event.GetNextDispatch], []⟩ : Outcome) := by
    unfold loggedDisabled; simp
  simp only [deliverAll, hc, List.map_cons, List.map_nil, w1, w2, w3, l1, l2, l3, hl0,
    decide_True, decide_False]
  rfl

/-- Witness of C4: the scenario started 2000 seconds after the zero time. -/
theorem startup_scenario_witness :
    zeroTime + 10 * Second ≤ 2000 * Second
    ∧ (deliverAll sdk State.init
      [(Env.atTime (1999 * Second), ⟨1, 7, 1, .finite 3⟩),
        (⟨2000 * Second, 2000 * Second, none⟩, ⟨2, 7, 0, .finite 0⟩),
        (⟨2000 * Second + 3 * Second, 2000 * Second + 3 * Second, none⟩,
          ⟨3, 7, 0, .finite 0⟩),
        (⟨2000 * Second + 11 * Second, 2000 * Second + 11 * Second, none⟩,
          ⟨4, 7, 0, .finite 0⟩)]).map
      (fun o => ((writes o.trace).length, decide (loggedDisabled o)))
    = [(0, false), (1, true), (1, false), (1, true)] :=
  ⟨by decide,
    startup_scenario sdk (2000 * Second) (Env.atTime (1999 * Second)) none none none
      ⟨1, 7, 1, .finite 3⟩ ⟨2, 7, 0, .finite 0⟩ ⟨3, 7, 0, .finite 0⟩ ⟨4, 7, 0, .finite 0⟩
      ⟨rfl, rfl⟩ ⟨rfl, rfl⟩ ⟨rfl, rfl⟩ ⟨rfl, rfl⟩ (by decide)⟩

/-! ## The poll loop -/

theorem requests_runLines (run : List DispatchResult) : requests (runLines run) = [] := by
  induction run with
  | nil => rfl
  | cons d rest ih =>
    have h : runLines (d :: rest)
        = Event.GetNextDispatch :: drainLine d :: runLines rest := by
      simp [runLines]
    have hl : requests [drainLine d] = [] := by
      unfold drainLine; split <;> rfl
    have hc : requests (Event.GetNextDispatch :: drainLine d :: runLines rest)
        = requests [drainLine d] ++ requests (runLines rest) := by
      have hs : Event.GetNextDispatch :: drainLine d :: runLines rest
          = [Event.GetNextDispatch] ++ ([drainLine d] ++ runLines rest) := rfl
      rw [hs]
      unfold requests
      rw [List.filter_append, List.filter_append]
      rfl
    rw [h, hc, hl, ih]
    rfl

theorem requests_case (lib : SimConnect) (env : Env) (s : State) (data : SimObjectValue) :
    requests (caseSimObjectDataByType lib env s data).2 = [] := by
  by_cases hc : data.DefineID = DataDefCameraState
  · rw [case_camera lib env s data hc]; rfl
  · by_cases ht : data.DefineID = DataDefTrackIrEnable ∧ trigger s data
    · rw [case_trigger lib env s data ht.1 ht.2]
      cases env.setDataErr <;>
        by_cases h : Since env.sinceAt s.debounce < 10 * Second <;> simp [h, requests]
    · rw [case_no_trigger lib env s data hc (fun hid htr => ht ⟨hid, htr⟩)]; rfl

theorem requests_lastItem (lib : SimConnect) (env : Env) (s : State)
    (o : Option DispatchResult) : requests (lastItem lib env s o).2 = [] := by
  cases o with
  | none => simp [lastItem, requests]
  | some d =>
    by_cases hr : d.r1 < 0
    · by_cases hu : uint32 d.r1 = lib.EFail <;>
        simp [lastItem, hr, onNegative, hu, requests]
    · rcases hp : d.ppData with _ | _ | c | data | i
      · simp [lastItem, hr, hp, requests]
      · simp [lastItem, hr, hp, requests]
      · simp [lastItem, hr, hp, requests]
      · have h := requests_case lib env s data
        unfold requests at h
        simp [lastItem, hr, hp, requests, h]
      · simp [lastItem, hr, hp, requests]

/-- A call of `dispatchProc` issues no request and pulls at least once. -/
theorem dispatchProc_polls (lib : SimConnect) (env : Env) (s : State)
    (q : List DispatchResult) :
    requests (dispatchProc lib env s q).trace = []
    ∧ 1 ≤ (dispatchProc lib env s q).trace.count Event.GetNextDispatch := by
  rw [dispatchProc_drain lib env s q]
  refine ⟨?_, ?_⟩
  · show requests (runLines _ ++ _) = []
    unfold requests
    rw [List.filter_append]
    have h1 := requests_runLines (q.takeWhile drainsAgain)
    have h2 := requests_lastItem lib env s (q.dropWhile drainsAgain).head?
    unfold requests at h1 h2
    rw [h1, h2]
    rfl
  · show 1 ≤ (runLines _ ++ _).count Event.GetNextDispatch
    rw [List.count_append, count_lastItem]
    omega

/-- Counterexample to C10: with a `Quit` pending, `HandleEvents` run for two ticks sends on
`done` in the first `dispatchProc` call of the first tick and then issues the second
request of that tick and both requests of the next tick, each followed by a pull. -/
theorem quit_stops_polling_counterexample :
    (HandleEvents sdk [(Env.atTime 5, Env.atTime 5), (Env.atTime 6, Env.atTime 6)]
        State.init [received .Quit]).trace
      = [Event.tickerRecv, Event.RequestDataOnSimObjectType DataDefTrackIrEnable,
          Event.GetNextDispatch,
          Event.logPrintln [.str "Disconnected from Flight Simulator."],
          Event.doneSend,
          Event.RequestDataOnSimObjectType DataDefCameraState, Event.GetNextDispatch,
          Event.tickerRecv, Event.RequestDataOnSimObjectType DataDefTrackIrEnable,
          Event.GetNextDispatch,
          Event.RequestDataOnSimObjectType DataDefCameraState, Event.GetNextDispatch]
    ∧ ¬ noPollAfterQuit
        (HandleEvents sdk [(Env.atTime 5, Env.atTime 5), (Env.atTime 6, Env.atTime 6)]
          State.init [received .Quit]).trace := by
  decide

/-- The requests of `HandleEvents` are the two requests of each tick, and each tick pulls at
least twice. -/
theorem requests_HandleEvents (lib : SimConnect) (ticks : List (Env × Env)) (s : State)
    (q : List DispatchResult) :
    requests (HandleEvents lib ticks s q).trace
      = ticks.flatMap (fun _ =>
          [Event.RequestDataOnSimObjectType DataDefTrackIrEnable,
            Event.RequestDataOnSimObjectType DataDefCameraState])
    ∧ 2 * ticks.length ≤ (HandleEvents lib ticks s q).trace.count Event.GetNextDispatch := by
  induction ticks generalizing s q with
  | nil => simp [HandleEvents, requests]
  | cons t ticks ih =>
    obtain ⟨e1, e2⟩ := t
    have h1 := dispatchProc_polls lib e1 s q
    have h2 := dispatchProc_polls lib e2 (dispatchProc lib e1 s q).state
      (dispatchProc lib e1 s q).pending
    have h3 := ih (dispatchProc lib e2 (dispatchProc lib e1 s q).state
      (dispatchProc lib e1 s q).pending).state
      (dispatchProc lib e2 (dispatchProc lib e1 s q).state
      (dispatchProc lib e1 s q).pending).pending
    have r1 := h1.1
    have r2 := h2.1
    have r3 := h3.1
    unfold requests at r1 r2 r3 ⊢
    refine ⟨?_, ?_⟩
    · simp only [HandleEvents, List.filter_append, r1, r2, r3]
      simp
    · simp only [HandleEvents, List.count_append, List.length_cons]
      have c1 := h1.2
      have c2 := h2.2
      have c3 := h3.2
      have c4 : List.count Event.GetNextDispatch
          [Event.tickerRecv, Event.RequestDataOnSimObjectType DataDefTrackIrEnable] = 0 := by
        decide
      have c5 : List.count Event.GetNextDispatch
          [Event.RequestDataOnSimObjectType DataDefCameraState] = 0 := by decide
      omega

theorem pollOrder_of_inCall (a b : Event) (h : inCall a = true) : pollOrder a b := by
  cases a <;> simp [inCall] at h <;> simp [pollOrder]

theorem chain_inCall (l m : List Event) (hl : ∀ a ∈ l, inCall a = true)
    (hm : m.Chain' pollOrder) : (l ++ m).Chain' pollOrder := by
  induction l with
  | nil => simpa using hm
  | cons a l ih =>
    rw [List.cons_append, List.chain'_cons']
    exact ⟨fun y _ => pollOrder_of_inCall a y (hl a (List.mem_cons_self _ _)),
      ih (fun x hx => hl x (List.mem_cons_of_mem _ hx))⟩

/-- The handling of an object-data message makes only lines and writes. -/
theorem case_inCall (lib : SimConnect) (env : Env) (s : State) (data : SimObjectValue) :
    ∀ a ∈ (caseSimObjectDataByType lib env s data).2, inCall a = true := by
  by_cases hc : data.DefineID = DataDefCameraState
  · rw [case_camera lib env s data hc]; simp
  · by_cases ht : data.DefineID = DataDefTrackIrEnable ∧ trigger s data
    · rw [case_trigger lib env s data ht.1 ht.2]
      cases env.setDataErr <;>
        by_cases h : Since env.sinceAt s.debounce < 10 * Second <;> simp [h, inCall]
    · rw [case_no_trigger lib env s data hc (fun hid htr => ht ⟨hid, htr⟩)]; simp

/-- The trace of a `dispatchProc` call: a pull, then pulls, lines and writes, then at most
one send on `done`, which ends the call. -/
theorem dispatchProc_shape (lib : SimConnect) (env : Env) (s : State)
    (q : List DispatchResult) :
    ∃ Q S, (dispatchProc lib env s q).trace = Event.GetNextDispatch :: (Q ++ S)
      ∧ (∀ a ∈ Q, inCall a = true) ∧ (S = [] ∨ S = [Event.doneSend]) := by
  induction q with
  | nil =>
    refine ⟨[], [], ?_, by simp, Or.inl rfl⟩
    simp [dispatchProc, (noData_silent lib).2]
  | cons d rest ih =>
    by_cases hr : d.r1 < 0
    · refine ⟨onNegative lib d, [], by simp [dispatchProc, hr], ?_, Or.inl rfl⟩
      unfold onNegative
      split <;> simp [inCall]
    · obtain ⟨Q, S, hQ, hin, hS⟩ := ih
      rcases hp : d.ppData with _ | _ | c | data | i
      · refine ⟨Event.logPrintln [.str "Connected to Flight Simulator."]
          :: Event.GetNextDispatch :: Q, S, ?_, ?_, hS⟩
        · simp [dispatchProc, hr, hp, hQ]
        · intro a ha
          rcases List.mem_cons.mp ha with h | ha
          · rw [h]; rfl
          · rcases List.mem_cons.mp ha with h | ha
            · rw [h]; rfl
            · exact hin a ha
      · refine ⟨[Event.logPrintln [.str "Disconnected from Flight Simulator."]],
          [Event.doneSend], ?_, ?_, Or.inr rfl⟩
        · simp [dispatchProc, hr, hp]
        · simp [inCall]
      · refine ⟨Event.logPrintln [.str "Error:", .int c]
          :: Event.GetNextDispatch :: Q, S, ?_, ?_, hS⟩
        · simp [dispatchProc, hr, hp, hQ]
        · intro a ha
          rcases List.mem_cons.mp ha with h | ha
          · rw [h]; rfl
          · rcases List.mem_cons.mp ha with h | ha
            · rw [h]; rfl
            · exact hin a ha
      · refine ⟨(caseSimObjectDataByType lib env s data).2, [], ?_,
          case_inCall lib env s data, Or.inl rfl⟩
        simp [dispatchProc, hr, hp]
      · refine ⟨[Event.fmtPrintf "recieved: %v\n" [.pointer d.ptr]], [], ?_, ?_, Or.inl rfl⟩
        · simp [dispatchProc, hr, hp]
        · simp [inCall]

/-- The trace of `HandleEvents` keeps the order of the poll loop, starts with a receive
from the ticker and ends inside a `dispatchProc` call. -/
theorem HandleEvents_order (lib : SimConnect) (ticks : List (Env × Env)) (s : State)
    (q : List DispatchResult) :
    (HandleEvents lib ticks s q).trace.Chain' pollOrder
    ∧ ((HandleEvents lib ticks s q).trace.head? = none
      ∨ (HandleEvents lib ticks s q).trace.head? = some Event.tickerRecv)
    ∧ (∀ x ∈ (HandleEvents lib ticks s q).trace.getLast?,
        inCall x = true ∨ x = Event.doneSend) := by
  induction ticks generalizing s q with
  | nil => simp [HandleEvents]
  | cons t ticks ih =>
    obtain ⟨e1, e2⟩ := t
    obtain ⟨Q1, S1, hD1, hin1, hS1⟩ := dispatchProc_shape lib e1 s q
    obtain ⟨Q2, S2, hD2, hin2, hS2⟩ := dispatchProc_shape lib e2
      (dispatchProc lib e1 s q).state (dispatchProc lib e1 s q).pending
    have h3 := ih (dispatchProc lib e2 (dispatchProc lib e1 s q).state
      (dispatchProc lib e1 s q).pending).state
      (dispatchProc lib e2 (dispatchProc lib e1 s q).state
      (dispatchProc lib e1 s q).pending).pending
    generalize hT3 : (HandleEvents lib ticks
      (dispatchProc lib e2 (dispatchProc lib e1 s q).state
        (dispatchProc lib e1 s q).pending).state
      (dispatchProc lib e2 (dispatchProc lib e1 s q).state
        (dispatchProc lib e1 s q).pending).pending).trace = T3 at h3
    have ht : (HandleEvents lib ((e1, e2) :: ticks) s q).trace
        = Event.tickerRecv :: Event.RequestDataOnSimObjectType DataDefTrackIrEnable
          :: ((Event.GetNextDispatch :: Q1) ++ (S1
            ++ (Event.RequestDataOnSimObjectType DataDefCameraState
              :: ((Event.GetNextDispatch :: Q2) ++ (S2 ++ T3))))) := by
      simp only [HandleEvents, hD1, hD2, hT3]
      simp [List.append_assoc]
    have hg1 : ∀ a ∈ Event.GetNextDispatch :: Q1, inCall a = true := by
      intro a ha
      rcases List.mem_cons.mp ha with h | ha
      · rw [h]; rfl
      · exact hin1 a ha
    have hg2 : ∀ a ∈ Event.GetNextDispatch :: Q2, inCall a = true := by
      intro a ha
      rcases List.mem_cons.mp ha with h | ha
      · rw [h]; rfl
      · exact hin2 a ha
    have c0 : (S2 ++ T3).Chain' pollOrder := by
      rcases hS2 with h | h
      · rw [h]; simpa using h3.1
      · rw [h, List.singleton_append, List.chain'_cons']
        refine ⟨?_, h3.1⟩
        intro y hy
        rcases h3.2.1 with hn | hn
        · rw [hn] at hy; simp at hy
        · rw [hn] at hy
          have : y = Event.tickerRecv := by simpa using hy.symm
          rw [this]; simp [pollOrder]
    have c1 := chain_inCall _ _ hg2 c0
    have c2 : (Event.RequestDataOnSimObjectType DataDefCameraState
        :: ((Event.GetNextDispatch :: Q2) ++ (S2 ++ T3))).Chain' pollOrder := by
      rw [List.chain'_cons']
      refine ⟨?_, c1⟩
      intro y hy
      have : y = Event.GetNextDispatch := by simpa using hy.symm
      rw [this]; simp [pollOrder]
    have c3 : (S1 ++ (Event.RequestDataOnSimObjectType DataDefCameraState
        :: ((Event.GetNextDispatch :: Q2) ++ (S2 ++ T3)))).Chain' pollOrder := by
      rcases hS1 with h | h
      · rw [h]; simpa using c2
      · rw [h, List.singleton_append, List.chain'_cons']
        refine ⟨?_, c2⟩
        intro y hy
        have : y = Event.RequestDataOnSimObjectType DataDefCameraState := by
          simpa using hy.symm
        rw [this]; simp [pollOrder]
    have c4 := chain_inCall _ _ hg1 c3
    refine ⟨?_, ?_, ?_⟩
    · rw [ht, List.chain'_cons', List.chain'_cons']
      refine ⟨?_, ?_, c4⟩
      · intro y hy
        have : y = Event.RequestDataOnSimObjectType DataDefTrackIrEnable := by
          simpa using hy.symm
        rw [this]; simp [pollOrder]
      · intro y hy
        have : y = Event.GetNextDispatch := by simpa using hy.symm
        rw [this]; simp [pollOrder]
    · right
      rw [ht]; rfl
    · have hlast2 : ∀ x ∈ ((Event.GetNextDispatch :: Q2) ++ S2).getLast?,
          inCall x = true ∨ x = Event.doneSend := by
        intro x hx
        have hm := List.mem_of_mem_getLast? hx
        rcases List.mem_append.mp hm with hm | hm
        · exact Or.inl (hg2 x hm)
        · rcases hS2 with h | h
          · rw [h] at hm; simp at hm
          · rw [h] at hm
            exact Or.inr (by simpa using hm)
      have hsplit : (HandleEvents lib ((e1, e2) :: ticks) s q).trace
          = (Event.tickerRecv :: Event.RequestDataOnSimObjectType DataDefTrackIrEnable
            :: ((Event.GetNextDispatch :: Q1) ++ (S1
              ++ [Event.RequestDataOnSimObjectType DataDefCameraState])))
            ++ (((Event.GetNextDispatch :: Q2) ++ S2) ++ T3) := by
        rw [ht]; simp [List.append_assoc]
      intro x hx
      rw [hsplit, List.getLast?_append_of_ne_nil _ (by simp), List.getLast?_append] at hx
      cases hT : T3.getLast? with
      | none =>
        rw [hT] at hx
        exact hlast2 x (by simpa using hx)
      | some y =>
        rw [hT] at hx
        have hxy : x = y := by simpa using hx.symm
        rw [hxy]
        exact h3.2.2 y (by rw [hT]; rfl)

/-- C10, amended: handling a `Quit` does not stop the poll loop. In every run of
`HandleEvents` through any number of ticks in which at most one send on `done` occurs (the
channel buffers one value, so that send completes): every tick issues the request for
`DataDefTrackIrEnable` and then the request for `DataDefCameraState`, whatever
`dispatchProc` consumed; each receive from the ticker is directly followed by the request
for `DataDefTrackIrEnable`, each request by the pull of a `dispatchProc` call, and the send
on `done`, unless it is the last action of the run, by the request for
`DataDefCameraState` or by the next receive from the ticker; the last action of the run is
a pull, a line, a write or the send on `done`; there are at least two pulls per tick. -/
theorem polling_ignores_quit (lib : SimConnect) (ticks : List (Env × Env)) (s : State)
    (q : List DispatchResult)
    (hsend : (HandleEvents lib ticks s q).trace.count Event.doneSend ≤ 1) :
    requests (HandleEvents lib ticks s q).trace
      = ticks.flatMap (fun _ =>
          [Event.RequestDataOnSimObjectType DataDefTrackIrEnable,
            Event.RequestDataOnSimObjectType DataDefCameraState])
    ∧ (HandleEvents lib ticks s q).trace.Chain' pollOrder
    ∧ (∀ x ∈ (HandleEvents lib ticks s q).trace.getLast?,
        inCall x = true ∨ x = Event.doneSend)
    ∧ 2 * ticks.length ≤ (HandleEvents lib ticks s q).trace.count Event.GetNextDispatch := by
  have _h := hsend
  have h1 := requests_HandleEvents lib ticks s q
  have h2 := HandleEvents_order lib ticks s q
  exact ⟨h1.1, h2.1, h2.2.2, h1.2⟩

/-- Witness of the amended C10: the run of two ticks with a `Quit` pending sends once on
`done` and issues all four requests. -/
theorem polling_ignores_quit_witness :
    (HandleEvents sdk [(Env.atTime 5, Env.atTime 5), (Env.atTime 6, Env.atTime 6)]
        State.init [received .Quit]).trace.count Event.doneSend ≤ 1
    ∧ requests (HandleEvents sdk [(Env.atTime 5, Env.atTime 5), (Env.atTime 6, Env.atTime 6)]
        State.init [received .Quit]).trace
      = [Event.RequestDataOnSimObjectType DataDefTrackIrEnable,
          Event.RequestDataOnSimObjectType DataDefCameraState,
          Event.RequestDataOnSimObjectType DataDefTrackIrEnable,
          Event.RequestDataOnSimObjectType DataDefCameraState]
    ∧ (HandleEvents sdk [(Env.atTime 5, Env.atTime 5), (Env.atTime 6, Env.atTime 6)]
        State.init [received .Quit]).trace.Chain' pollOrder :=
  ⟨by decide,
    (polling_ignores_quit sdk [(Env.atTime 5, Env.atTime 5), (Env.atTime 6, Env.atTime 6)]
      State.init [received .Quit] (by decide)).1.trans (by decide),
    (polling_ignores_quit sdk [(Env.atTime 5, Env.atTime 5), (Env.atTime 6, Env.atTime 6)]
      State.init [received .Quit] (by decide)).2.1⟩

end AutoTrackIR
